import Mathlib

/-!
A shallow embedding of
`src/plugins/github-actions/src/components/WorkflowRunsTable/WorkflowRunsTable.tsx`.

The TypeScript file is pure view logic: a column list (`generatedColumns`),
a presentational view (`WorkflowRunsTableView`) mapping props to a table-widget
configuration, and a container (`WorkflowRunsTable`) that resolves a project
name, splits it into owner/repo, calls the run-fetching hook, and branches
between an empty-state panel and the view.

Modelling conventions:
- a JS value that may be `undefined` is an `Option`;
- callbacks produce values of an abstract effect type `ε` (the component never
  inspects a callback's result, only wires it through);
- rendered output is modelled as the data handed to the external widgets
  (table configuration, empty-state props, per-cell view values), since the
  widgets themselves are external collaborators.
-/

namespace Backstage

variable {ε η : Type}

/-- JS template-literal interpolation of a possibly-undefined string:
`undefined` is coerced to the text "undefined". -/
def jsInterp : Option String → String
  | none => "undefined"
  | some s => s

/-- The `commit` record inside a run's `source` field. -/
structure Commit where
  hash : String
  url : String
deriving Repr, DecidableEq

/-- The `source` field of a `WorkflowRun`: branch name plus commit. -/
structure RunSource where
  branchName : String
  commit : Commit
deriving Repr, DecidableEq

/-- The `WorkflowRun` record of the source file. `onReRunClick` is a callback,
modelled as a value of the abstract effect type. -/
structure WorkflowRun (ε : Type) where
  id : String
  message : String
  url : Option String := none
  githubUrl : Option String := none
  source : RunSource
  status : String
  conclusion : String
  onReRunClick : ε
deriving DecidableEq

/-- A row as seen by a column `render` function: the source types it as a
partial `WorkflowRun`, every top-level field optional. -/
structure WorkflowRunRow (ε : Type) where
  id : Option String := none
  message : Option String := none
  url : Option String := none
  githubUrl : Option String := none
  source : Option RunSource := none
  status : Option String := none
  conclusion : Option String := none
  onReRunClick : Option ε := none
deriving DecidableEq

/-- View a full run as the partial row the table hands to `render`. -/
def WorkflowRun.toRow (r : WorkflowRun ε) : WorkflowRunRow ε :=
  { id := some r.id, message := some r.message, url := r.url,
    githubUrl := r.githubUrl, source := some r.source, status := some r.status,
    conclusion := some r.conclusion, onReRunClick := some r.onReRunClick }

/-- Modelled from the spec: `buildRouteRef.path` is imported from
`../../plugin`, a file of this repository that is not part of the sources
here. The spec calls the Message link target "a run-detail route templated
with the run's id", so we fix a representative template whose only relevant
feature is its `:id` parameter. -/
def buildRouteRefPath : String := "/build/:id"

/-- Substitute every occurrence of the `:id` placeholder in a character list
by the given value. -/
def replaceIdParam (val : List Char) : List Char → List Char
  | [] => []
  | ':' :: 'i' :: 'd' :: rest => val ++ replaceIdParam val rest
  | c :: cs => c :: replaceIdParam val cs

/-- Modelled from the spec: the "routing primitive" collaborator, which
"generates a path string from a named route template and an `id` parameter"
(the code calls react-router's `generatePath` with `row.id!`). It is modelled
as textual substitution of the `:id` placeholder; an absent id is interpolated
as the JS display text "undefined", matching the spec's "falls back to
undefined display if `id` is absent". -/
def generatePath (template : String) (id : Option String) : String :=
  String.mk (replaceIdParam (jsInterp id).data template.data)

/-- The value rendered into one table cell by a column `render` function. -/
inductive CellView (ε : Type) where
  | message (href : String) (text : Option String)
  | source (branchName : Option String) (commitHash : Option String)
  | status (status : Option String) (conclusion : Option String)
  | rerunButton (onClick : Option ε)
deriving DecidableEq

/-- The Message column's `render`: a link to the run-detail route built from
the row's `id`, displaying the row's `message`. -/
def renderMessage (row : WorkflowRunRow ε) : CellView ε :=
  .message (generatePath buildRouteRefPath row.id) row.message

/-- The Source column's `render`: the optional chains `row.source?.branchName`
and `row.source?.commit.hash` — both short-circuit to undefined when `source`
is absent. -/
def renderSource (row : WorkflowRunRow ε) : CellView ε :=
  .source (row.source.map RunSource.branchName)
    (row.source.map fun s => s.commit.hash)

/-- The Status column's `render`: `status` and `conclusion` are handed to the
external status-badge collaborator verbatim, possibly undefined. -/
def renderStatus (row : WorkflowRunRow ε) : CellView ε :=
  .status row.status row.conclusion

/-- The Actions column's `render`: an icon button wired to the row's
`onReRunClick`. -/
def renderActions (row : WorkflowRunRow ε) : CellView ε :=
  .rerunButton row.onReRunClick

/-- One entry of the column list handed to the table widget. -/
structure TableColumn (ε : Type) where
  title : String
  field : Option String := none
  type? : Option String := none
  width : Option String := none
  highlight : Bool := false
  render : Option (WorkflowRunRow ε → CellView ε) := none

/-- The fixed `generatedColumns` list of the source file: ID, Message, Source,
Status, Actions. -/
def generatedColumns (ε : Type) : List (TableColumn ε) :=
  [ { title := "ID", field := some "id", type? := some "numeric",
      width := some "150px" },
    { title := "Message", field := some "message", highlight := true,
      render := some renderMessage },
    { title := "Source", render := some renderSource },
    { title := "Status", width := some "150px",
      render := some renderStatus },
    { title := "Actions", render := some renderActions,
      width := some "10%" } ]

/-- The `Props` type of `WorkflowRunsTableView`. The container's spread does
not include a `projectName`, so the field is modelled as optional. -/
structure Props (ε : Type) where
  loading : Bool
  retry : ε
  runs : Option (List (WorkflowRun ε)) := none
  projectName : Option String := none
  page : Int
  onChangePage : Int → ε
  total : Int
  pageSize : Int
  onChangePageSize : Int → ε

/-- The `options` object passed to the table widget. -/
structure TableOptions where
  paging : Bool
  pageSize : Int
  padding : String
deriving Repr, DecidableEq

/-- One toolbar action of the table widget. -/
structure TableAction (ε : Type) where
  tooltip : String
  isFreeAction : Bool
  onClick : ε

/-- The configuration `WorkflowRunsTableView` hands to the external `Table`
widget. -/
structure TableConfig (ε : Type) where
  isLoading : Bool
  options : TableOptions
  totalCount : Int
  page : Int
  actions : List (TableAction ε)
  data : List (WorkflowRun ε)
  onChangePage : Int → ε
  onChangeRowsPerPage : Int → ε
  title : Option String
  columns : List (TableColumn ε)

/-- `WorkflowRunsTableView`: a pure mapping from props to the table-widget
configuration. `data` is `runs ?? []`; pagination values and change callbacks
are forwarded untouched. -/
def WorkflowRunsTableView (props : Props ε) : TableConfig ε :=
  { isLoading := props.loading,
    options := { paging := true, pageSize := props.pageSize,
                 padding := "dense" },
    totalCount := props.total,
    page := props.page,
    actions := [ { tooltip := "Reload workflow runs", isFreeAction := true,
                   onClick := props.retry } ],
    data := props.runs.getD [],
    onChangePage := props.onChangePage,
    onChangeRowsPerPage := props.onChangePageSize,
    title := props.projectName,
    columns := generatedColumns ε }

/-- Result of the external `useProjectName` hook. -/
structure UseProjectNameResult where
  value : Option String
  loading : Bool
deriving Repr, DecidableEq

/-- The argument object the container passes to `useWorkflowRuns`. JS array
destructuring of the split result leaves out-of-range positions undefined, so
`owner` and `repo` are optional. -/
structure UseWorkflowRunsArgs where
  owner : Option String
  repo : Option String
  branch : Option String
deriving Repr, DecidableEq

/-- The state half of the `useWorkflowRuns` result tuple. -/
structure WorkflowRunsState (ε : Type) where
  runs : Option (List (WorkflowRun ε)) := none
  loading : Bool
  page : Int
  total : Int
  pageSize : Int

/-- The action half of the `useWorkflowRuns` result tuple. -/
structure WorkflowRunsActions (ε : Type) where
  retry : ε
  setPage : Int → ε
  setPageSize : Int → ε

/-- JS `String.prototype.split` with a single-character separator, on
character lists: splitting never yields the empty list (the empty string
splits to one empty field). -/
def jsSplitAux (sep : Char) : List Char → List (List Char)
  | [] => [[]]
  | c :: cs =>
    match jsSplitAux sep cs with
    | [] => [[]]
    | r :: rs => if c = sep then [] :: r :: rs else (c :: r) :: rs

/-- JS `s.split(sep)` for a single-character separator. -/
def jsSplit (s : String) (sep : Char) : List String :=
  (jsSplitAux sep s.data).map fun cs => String.mk cs

/-- The container's owner/repo derivation:
`(projectName ?? '/').split('/')` destructured as `[owner, repo]`, plus the
`branch` pass-through, forming the `useWorkflowRuns` argument. -/
def workflowRunsArgs (projectName : Option String) (branch : Option String) :
    UseWorkflowRunsArgs :=
  let parts := jsSplit (projectName.getD "/") '/'
  { owner := parts[0]?, repo := parts[1]?, branch := branch }

/-- The call-to-action link of the empty-state panel:
the JS template literal interpolating `projectName` into the fixed URL. -/
def emptyStateHref (projectName : Option String) : String :=
  "https://github.com/" ++ jsInterp projectName ++ "/actions/new"

/-- The props handed to the external `EmptyState` widget; the `action` button
is represented by its `href`. -/
structure EmptyStateProps where
  missing : String
  title : String
  description : String
  actionHref : String
deriving Repr, DecidableEq

/-- What the container renders: either the empty-state panel or the view. -/
inductive ContainerRender (ε : Type) where
  | emptyState (props : EmptyStateProps)
  | view (props : Props ε)

def ContainerRender.isEmptyState : ContainerRender ε → Bool
  | .emptyState _ => true
  | .view _ => false

def ContainerRender.isView : ContainerRender ε → Bool
  | .emptyState _ => false
  | .view _ => true

def ContainerRender.emptyHref? : ContainerRender ε → Option String
  | .emptyState e => some e.actionHref
  | .view _ => none

def ContainerRender.viewProps? : ContainerRender ε → Option (Props ε)
  | .emptyState _ => none
  | .view v => some v

/-- The fixed description text of the empty-state panel. -/
def emptyStateDescription : String :=
  "This component has Github Actions enabled, but no data was found. Have you created any Workflows? Click the button below to create a new Workflow."

/-- The container's return expression (`!runs ? <EmptyState .../> :
<WorkflowRunsTableView .../>`), as a function of the two hook results. An
empty array is truthy in JS, so the branch tests only presence. In the view
branch the spread `...tableProps` supplies page/total/pageSize (and no
`projectName`), `loading` is the OR of the two flags, and the hook's actions
become the callbacks. -/
def renderWorkflowRunsTable (pn : UseProjectNameResult)
    (st : WorkflowRunsState ε) (acts : WorkflowRunsActions ε) :
    ContainerRender ε :=
  match st.runs with
  | none =>
      .emptyState
        { missing := "data", title := "No Workflow Data",
          description := emptyStateDescription,
          actionHref := emptyStateHref pn.value }
  | some runs =>
      .view
        { loading := pn.loading || st.loading,
          retry := acts.retry,
          runs := some runs,
          projectName := none,
          page := st.page,
          onChangePage := acts.setPage,
          total := st.total,
          pageSize := st.pageSize,
          onChangePageSize := acts.setPageSize }

/-- The `WorkflowRunsTable` container, parameterized by the two external
hooks (`useProjectName` over an opaque entity type `η`, and
`useWorkflowRuns`): resolve the project name, derive the hook argument, call
the run-fetcher, then branch on `runs` presence. -/
def WorkflowRunsTable (useProjectName : η → UseProjectNameResult)
    (useWorkflowRuns :
      UseWorkflowRunsArgs → WorkflowRunsState ε × WorkflowRunsActions ε)
    (entity : η) (branch : Option String) : ContainerRender ε :=
  let pn := useProjectName entity
  let hook := useWorkflowRuns (workflowRunsArgs pn.value branch)
  renderWorkflowRunsTable pn hook.1 hook.2

/-! ## Sample data used by witnesses -/

/-- A concrete run used by witnesses. -/
def run1 : WorkflowRun Unit :=
  { id := "101", message := "first commit", source := ⟨"main", ⟨"abc1", "u1"⟩⟩,
    status := "completed", conclusion := "success", onReRunClick := () }

/-- A second concrete run used by witnesses. -/
def run2 : WorkflowRun Unit :=
  { id := "102", message := "second commit", source := ⟨"dev", ⟨"abc2", "u2"⟩⟩,
    status := "in_progress", conclusion := "", onReRunClick := () }

/-! ## Claims -/

/-- Instantiating the run-detail route template with a present id yields the
route prefix followed by the id. -/
theorem generatePath_some (s : String) :
    generatePath buildRouteRefPath (some s) = "/build/" ++ s := by
  show String.mk (replaceIdParam s.data "/build/:id".data) = "/build/" ++ s
  have h1 : "/build/:id".data = ['/','b','u','i','l','d','/',':','i','d'] := rfl
  have h2 : ("/build/" ++ s) = String.mk ("/build/".data ++ s.data) := rfl
  have h3 : "/build/".data = ['/','b','u','i','l','d','/'] := rfl
  rw [h1, h2, h3]
  simp [replaceIdParam]

/-- Claim C1: for every input to the container, the empty-state panel is
rendered iff `runs` is undefined and the view iff `runs` is present —
including a present empty array — and the branch is unchanged under any
change of the project-name result, the loading flags, or the action
handlers. -/
theorem claim1_branch_on_runs_presence (pn pn2 : UseProjectNameResult)
    (st : WorkflowRunsState ε) (acts acts2 : WorkflowRunsActions ε)
    (b2 : Bool) :
    ((renderWorkflowRunsTable pn st acts).isEmptyState = st.runs.isNone) ∧
    ((renderWorkflowRunsTable pn st acts).isView = st.runs.isSome) ∧
    ((renderWorkflowRunsTable pn { st with runs := some [] } acts).isView
      = true) ∧
    ((renderWorkflowRunsTable pn2 { st with loading := b2 } acts2).isEmptyState
      = (renderWorkflowRunsTable pn st acts).isEmptyState) := by
  obtain ⟨runs, l, p, t, ps⟩ := st
  cases runs <;>
    simp [renderWorkflowRunsTable, ContainerRender.isEmptyState,
      ContainerRender.isView]

/-- Claim C2: when `runs` is present, the loading value the container passes
to the view is the logical OR of the project-name loading flag and the
run-fetch loading flag, and the view forwards exactly that value as the
table's loading indicator. -/
theorem claim2_loading_or (pn : UseProjectNameResult)
    (st : WorkflowRunsState ε) (acts : WorkflowRunsActions ε)
    (runs : List (WorkflowRun ε)) (h : st.runs = some runs) :
    ((renderWorkflowRunsTable pn st acts).viewProps?).map Props.loading
      = some (pn.loading || st.loading) ∧
    ((renderWorkflowRunsTable pn st acts).viewProps?).map
        (fun v => (WorkflowRunsTableView v).isLoading)
      = some (pn.loading || st.loading) := by
  obtain ⟨runs0, l, p, t, ps⟩ := st
  cases h
  simp [renderWorkflowRunsTable, ContainerRender.viewProps?,
    WorkflowRunsTableView]

/-- Witness for claim C2 at a concrete input: name loading, fetch idle. -/
theorem claim2_loading_or_witness :
    ((renderWorkflowRunsTable ⟨some "acme/widgets", true⟩
        (⟨some [], false, 0, 0, 5⟩ : WorkflowRunsState Unit)
        ⟨(), fun _ => (), fun _ => ()⟩).viewProps?).map Props.loading
      = some true ∧
    ((renderWorkflowRunsTable ⟨some "acme/widgets", true⟩
        (⟨some [], false, 0, 0, 5⟩ : WorkflowRunsState Unit)
        ⟨(), fun _ => (), fun _ => ()⟩).viewProps?).map
        (fun v => (WorkflowRunsTableView v).isLoading)
      = some true :=
  claim2_loading_or ⟨some "acme/widgets", true⟩ ⟨some [], false, 0, 0, 5⟩
    ⟨(), fun _ => (), fun _ => ()⟩ [] rfl

/-- Claim C3: the hook argument is built by splitting the resolved name on
'/' — owner is the first substring, repo the second, branch passed through —
and an absent name is replaced by "/" so owner and repo are both the empty
string, with no guard rejecting it. A recording hook shows the container
hands exactly this argument to the run-fetcher. -/
theorem claim3_owner_repo_split (name : String) (br : Option String) :
    ((workflowRunsArgs (some name) br).owner = (jsSplit name '/')[0]? ∧
     (workflowRunsArgs (some name) br).repo = (jsSplit name '/')[1]? ∧
     (workflowRunsArgs (some name) br).branch = br) ∧
    workflowRunsArgs none br = ⟨some "", some "", br⟩ ∧
    ((WorkflowRunsTable (fun _ : Unit => ⟨some name, false⟩)
        (fun args => ((⟨some [], false, 0, 0, 5⟩ :
            WorkflowRunsState UseWorkflowRunsArgs),
          ⟨args, fun _ => args, fun _ => args⟩)) () br).viewProps?).map
        Props.retry
      = some (workflowRunsArgs (some name) br) :=
  ⟨⟨rfl, rfl, rfl⟩, rfl, rfl⟩

/-- Claim C4: with project name "acme/widgets" the run-fetcher receives
owner "acme" and repo "widgets", and when the empty-state panel is shown its
call-to-action href is the template instantiated to
"https://github.com/acme/widgets/actions/new". -/
theorem claim4_acme_widgets :
    workflowRunsArgs (some "acme/widgets") none
      = ⟨some "acme", some "widgets", none⟩ ∧
    (WorkflowRunsTable (fun _ : Unit => ⟨some "acme/widgets", false⟩)
      (fun _ => ((⟨none, false, 0, 0, 5⟩ : WorkflowRunsState Unit),
        ⟨(), fun _ => (), fun _ => ()⟩)) () none).emptyHref?
      = some "https://github.com/acme/widgets/actions/new" :=
  ⟨by decide, by decide⟩

/-- Claim C5: a view given N runs hands exactly those N rows to the table as
its data, with the generated column list, and the Message column render of
each row is a link whose target is the run-detail route instantiated with
that row's id (the `:id`-substituted template, i.e. the route prefix followed
by the id), displaying the row's message. -/
theorem claim5_rows_and_links (props : Props ε)
    (runs : List (WorkflowRun ε)) (h : props.runs = some runs) :
    (WorkflowRunsTableView props).data = runs ∧
    (WorkflowRunsTableView props).data.length = runs.length ∧
    (WorkflowRunsTableView props).columns = generatedColumns ε ∧
    ∀ r ∈ runs,
      renderMessage (WorkflowRun.toRow r)
          = .message (generatePath buildRouteRefPath (some r.id))
              (some r.message) ∧
        generatePath buildRouteRefPath (some r.id) = "/build/" ++ r.id := by
  refine ⟨by simp [WorkflowRunsTableView, h], by simp [WorkflowRunsTableView, h],
    rfl, ?_⟩
  intro r _
  exact ⟨rfl, generatePath_some r.id⟩

/-- Witness for claim C5 at a concrete two-run input. -/
theorem claim5_rows_and_links_witness :
    (WorkflowRunsTableView
        ({ loading := false, retry := (), runs := some [run1, run2],
           page := 0, onChangePage := fun _ => (), total := 2, pageSize := 5,
           onChangePageSize := fun _ => () } : Props Unit)).data
      = [run1, run2] ∧
    (WorkflowRunsTableView
        ({ loading := false, retry := (), runs := some [run1, run2],
           page := 0, onChangePage := fun _ => (), total := 2, pageSize := 5,
           onChangePageSize := fun _ => () } : Props Unit)).data.length
      = [run1, run2].length ∧
    (WorkflowRunsTableView
        ({ loading := false, retry := (), runs := some [run1, run2],
           page := 0, onChangePage := fun _ => (), total := 2, pageSize := 5,
           onChangePageSize := fun _ => () } : Props Unit)).columns
      = generatedColumns Unit ∧
    ∀ r ∈ [run1, run2],
      renderMessage (WorkflowRun.toRow r)
          = .message (generatePath buildRouteRefPath (some r.id))
              (some r.message) ∧
        generatePath buildRouteRefPath (some r.id) = "/build/" ++ r.id :=
  claim5_rows_and_links _ [run1, run2] rfl

/-- Claim C6: the view forwards page, pageSize and total to the table widget
unchanged, and forwards change events to `onChangePage` / `onChangePageSize`
with the widget-supplied value — no clamping, validation, or off-by-one
correction. -/
theorem claim6_pagination_passthrough (props : Props ε) :
    (WorkflowRunsTableView props).page = props.page ∧
    (WorkflowRunsTableView props).options.pageSize = props.pageSize ∧
    (WorkflowRunsTableView props).totalCount = props.total ∧
    ((WorkflowRunsTableView props).onChangePage = props.onChangePage ∧
      ∀ p : Int, (WorkflowRunsTableView props).onChangePage p
        = props.onChangePage p) ∧
    ((WorkflowRunsTableView props).onChangeRowsPerPage
        = props.onChangePageSize ∧
      ∀ s : Int, (WorkflowRunsTableView props).onChangeRowsPerPage s
        = props.onChangePageSize s) :=
  ⟨rfl, rfl, rfl, ⟨rfl, fun _ => rfl⟩, ⟨rfl, fun _ => rfl⟩⟩

/-- Claim C7: the Source column render validates nothing — on a row whose
source (and hence its commit, per the row type) is absent, it returns
normally with both displayed sub-fields undefined. -/
theorem claim7_source_absent (row : WorkflowRunRow ε) (h : row.source = none) :
    renderSource row = .source none none := by
  simp [renderSource, h]

/-- Witness for claim C7 at the all-absent row. -/
theorem claim7_source_absent_witness :
    renderSource ({} : WorkflowRunRow Unit) = .source none none :=
  claim7_source_absent {} rfl

/-- Claim C8: the Message column render has no defensive check on id — an
absent id is interpolated into the generated link target as the JS display
text "undefined", and the render returns normally. -/
theorem claim8_id_absent (row : WorkflowRunRow ε) (h : row.id = none) :
    renderMessage row = .message "/build/undefined" row.message := by
  have hgen : generatePath buildRouteRefPath none = "/build/undefined" := by
    decide
  simp [renderMessage, h, hgen]

/-- Witness for claim C8 at the all-absent row. -/
theorem claim8_id_absent_witness :
    renderMessage ({} : WorkflowRunRow Unit)
      = .message "/build/undefined" (none : Option String) :=
  claim8_id_absent {} rfl

/-- Claim C9: invoked with `runs` undefined, the view still renders the table
and passes an empty array as its data; its whole output equals the output for
an explicit empty run list, so the view alone cannot distinguish undefined
from empty. -/
theorem claim9_view_runs_default (props : Props ε) (h : props.runs = none) :
    (WorkflowRunsTableView props).data = [] ∧
    WorkflowRunsTableView props
      = WorkflowRunsTableView { props with runs := some [] } := by
  obtain ⟨l, rt, rs, pj, pg, ocp, tt, psz, ocps⟩ := props
  cases h
  exact ⟨rfl, rfl⟩

/-- Witness for claim C9 at a concrete props value with absent runs. -/
theorem claim9_view_runs_default_witness :
    (WorkflowRunsTableView
        ({ loading := true, retry := (), runs := none, page := 1,
           onChangePage := fun _ => (), total := 0, pageSize := 20,
           onChangePageSize := fun _ => () } : Props Unit)).data = [] ∧
    WorkflowRunsTableView
        ({ loading := true, retry := (), runs := none, page := 1,
           onChangePage := fun _ => (), total := 0, pageSize := 20,
           onChangePageSize := fun _ => () } : Props Unit)
      = WorkflowRunsTableView
        { ({ loading := true, retry := (), runs := none, page := 1,
             onChangePage := fun _ => (), total := 0, pageSize := 20,
             onChangePageSize := fun _ => () } : Props Unit) with
          runs := some [] } :=
  claim9_view_runs_default _ rfl

/-- Claim C10: when the project-name lookup yields undefined, the empty-state
call-to-action href interpolates the JS text "undefined" into the URL
template, both for the href builder and for the full container. -/
theorem claim10_undefined_interpolation :
    emptyStateHref none = "https://github.com/undefined/actions/new" ∧
    (WorkflowRunsTable (fun _ : Unit => ⟨none, true⟩)
      (fun _ => ((⟨none, true, 0, 0, 5⟩ : WorkflowRunsState Unit),
        ⟨(), fun _ => (), fun _ => ()⟩)) () none).emptyHref?
      = some "https://github.com/undefined/actions/new" :=
  ⟨by decide, by decide⟩

end Backstage
